import Mathlib

/-!
Shallow embedding of the synchronize-symitar-action core:
directory-type registry, license/API-key validation with bounded retries,
transport dispatch with guaranteed teardown, and result normalization.
Pure data is translated directly; network and transport-client effects are
modelled as oracle inputs (one outcome per attempt or per client operation),
and JavaScript try/finally semantics are modelled explicitly.
-/

namespace SymitarAction

/-! ## Directory type registry (src/directory-config.ts) -/

inductive DirectoryType
  | powerOns | letterFiles | dataFiles | helpFiles
deriving DecidableEq

inductive SymitarSyncDirectory
  | REPWRITERSPECS | LETTERSPECS | DATAFILES | HELPFILES
deriving DecidableEq

structure DirectoryTypeConfig where
  name : String
  symitarDirectory : SymitarSyncDirectory
  defaultPath : String
  supportsInstall : Bool
deriving DecidableEq

def DIRECTORY_CONFIG : DirectoryType → DirectoryTypeConfig
  | .powerOns => ⟨"PowerOns", .REPWRITERSPECS, "REPWRITERSPECS/", true⟩
  | .letterFiles => ⟨"LetterFiles", .LETTERSPECS, "LETTERSPECS/", false⟩
  | .dataFiles => ⟨"DataFiles", .DATAFILES, "DATAFILES/", false⟩
  | .helpFiles => ⟨"HelpFiles", .HELPFILES, "HELPFILES/", false⟩

def getDirectoryConfig (t : DirectoryType) : DirectoryTypeConfig :=
  DIRECTORY_CONFIG t

/-- Source: getInstallList — only PowerOns support installation. -/
def getInstallList (directoryType : DirectoryType) (installPowerOns : List String) :
    List String :=
  if (DIRECTORY_CONFIG directoryType).supportsInstall then installPowerOns else []

/-- The four file lists a sync outcome carries, as consumed by calculateTotalChanges. -/
structure SyncResultLists where
  deployed : List String
  deleted : List String
  installed : List String
  uninstalled : List String
deriving DecidableEq

/-- Source: calculateTotalChanges — PowerOns include install/uninstall counts,
others only deploy/delete. -/
def calculateTotalChanges (directoryType : DirectoryType) (result : SyncResultLists) :
    Nat :=
  let baseChanges := result.deployed.length + result.deleted.length
  if (DIRECTORY_CONFIG directoryType).supportsInstall then
    baseChanges + result.installed.length + result.uninstalled.length
  else
    baseChanges

/-! ## License validation (src/subscription.ts)

The fetch performed on each attempt is modelled by an oracle
`net : Nat → AttemptResult` giving, for each attempt number, either an HTTP
response (ok flag, status, status text, parsed body) or a thrown failure
(network error, timeout, abort, malformed body text). -/

def API_REQUEST_TIMEOUT_MS : Nat := 30000

def MAX_API_RETRIES : Nat := 3

/-- Process-wide stage/sandbox configuration read from the environment. -/
structure LicenseEnv where
  sstStagePrefix : String
  isSandbox : Bool
deriving DecidableEq

/-- The host baked into the ConnectionError raised after exhausting retries;
the source writes this string without the stage prefix. -/
def connectionErrorHost (env : LicenseEnv) : String :=
  "license" ++ (if env.isSandbox then ".libum-sandbox" else "") ++ ".libum.io"

/-- The host of the URL actually fetched, including the stage prefix. -/
def endpointHost (env : LicenseEnv) : String :=
  env.sstStagePrefix ++ ("license" ++ (if env.isSandbox then ".libum-sandbox" else "") ++ ".libum.io")

def licenseUrl (env : LicenseEnv) : String :=
  "https://" ++ endpointHost env ++ "/subscriptionsByApiKey?product=poweron-pipelines"

structure Subscription where
  id : String
  status : String
deriving DecidableEq

/-- Parsed JSON body of a response: either it passes the isSubscriptionResponse
type guard (boolean isFound plus an array of subscriptions) or it is malformed. -/
inductive ApiData
  | wellFormed (isFound : Bool) (subscriptions : List Subscription)
  | malformed
deriving DecidableEq

/-- Outcome the network delivers for one validation attempt. -/
inductive AttemptResult
  | response (ok : Bool) (status : Nat) (statusText : String) (data : ApiData)
  | thrown (message : String)
deriving DecidableEq

/-- Errors thrown by the action: plain Error, AuthenticationError (message,
apiKey, host), ConnectionError (message, host, port, isSSL, originalError). -/
inductive ThrownError
  | error (message : String)
  | authenticationError (message : String) (apiKey : String) (host : String)
  | connectionError (message : String) (host : String) (port : Nat) (isSSL : Bool)
      (originalError : String)
deriving DecidableEq

instance {ε α : Type} [DecidableEq ε] [DecidableEq α] : DecidableEq (Except ε α) :=
  fun a b =>
    match a, b with
    | .ok x, .ok y =>
      if h : x = y then isTrue (by rw [h]) else isFalse (by intro hh; cases hh; exact h rfl)
    | .error x, .error y =>
      if h : x = y then isTrue (by rw [h]) else isFalse (by intro hh; cases hh; exact h rfl)
    | .ok _, .error _ => isFalse (by intro hh; cases hh)
    | .error _, .ok _ => isFalse (by intro hh; cases hh)

/-- How the body of one attempt ends: success (return), a thrown
AuthenticationError (never retried), or a retryable failure. -/
inductive AttemptKind
  | success
  | authFail (e : ThrownError)
  | retryable (message : String)
deriving DecidableEq

/-- Classification of one attempt, following the try-body of validateApiKey:
non-ok status, malformed body, isFound = false and empty subscriptions all
throw AuthenticationError with an empty host; any other thrown failure is
retryable. -/
def processAttempt (apiKey : String) (a : AttemptResult) : AttemptKind :=
  match a with
  | .thrown msg => .retryable msg
  | .response ok status statusText data =>
    if !ok then
      .authFail (.authenticationError
        ("Failed to validate API key: " ++ toString status ++ " " ++ statusText) apiKey "")
    else
      match data with
      | .malformed =>
        .authFail (.authenticationError "Invalid response format from license server" apiKey "")
      | .wellFormed isFound subs =>
        if !isFound then
          .authFail (.authenticationError
            "Provided API key was not found. Please make sure \x27apiKey\x27 is set properly in your workflow."
            apiKey "")
        else if subs.length = 0 then
          .authFail (.authenticationError
            "No active subscription found for the provided API key." apiKey "")
        else
          .success

/-- Exponential backoff used between retryable attempts. -/
def backoffDelay (attempt : Nat) : Nat :=
  min (500 * 2 ^ (attempt - 1)) 10000

/-- Observable result of a validateApiKey run: how many attempts were made
(0 = no network call), the delays waited between attempts, in order, and the
final outcome. -/
structure ValidationRun where
  attemptsMade : Nat
  delays : List Nat
  outcome : Except ThrownError Unit
deriving DecidableEq

def connectionFailureMessage : String :=
  "Failed to fetch PowerOn Pipelines API key subscription data after multiple attempts"

/-- The guard on the key: in the source, !apiKey || !apiKey.trim() is true
exactly when the key consists only of whitespace (including the empty key). -/
def isBlankKey (s : String) : Bool :=
  s.data.all Char.isWhitespace

/-- The retry loop of validateApiKey, fuel = remaining loop iterations. -/
def validateApiKeyLoop (env : LicenseEnv) (apiKey : String) (net : Nat → AttemptResult) :
    Nat → Nat → ValidationRun
  | _, 0 => ⟨0, [], .ok ()⟩
  | attempt, fuel + 1 =>
    match processAttempt apiKey (net attempt) with
    | .success => ⟨attempt, [], .ok ()⟩
    | .authFail e => ⟨attempt, [], .error e⟩
    | .retryable msg =>
      if MAX_API_RETRIES ≤ attempt then
        ⟨attempt, [], .error (.connectionError connectionFailureMessage
          (connectionErrorHost env) 443 true msg)⟩
      else
        let rest := validateApiKeyLoop env apiKey net (attempt + 1) fuel
        ⟨rest.attemptsMade, backoffDelay attempt :: rest.delays, rest.outcome⟩

/-- Source: validateApiKey — empty or whitespace-only key fails before the
loop with no network call; otherwise up to MAX_API_RETRIES attempts. -/
def validateApiKey (env : LicenseEnv) (apiKey : String) (net : Nat → AttemptResult) :
    ValidationRun :=
  if isBlankKey apiKey then
    ⟨0, [], .error (.authenticationError "PowerOn Pipelines API Key is missing" apiKey "")⟩
  else
    validateApiKeyLoop env apiKey net 1 MAX_API_RETRIES

/-! ## Transport dispatch and orchestrator (src/synchronize.ts)

The two transport clients are external collaborators; each is modelled by an
oracle record giving the outcome of its operations (readiness, synchronize,
end). JavaScript try/finally semantics: if the finally block throws, that
error replaces the outcome of the try body. -/

inductive ConnectionType
  | https | ssh
deriving DecidableEq

inductive SyncMode
  | push | pull | mirror
deriving DecidableEq

inductive SymitarSyncMode
  | PUSH | PULL | MIRROR
deriving DecidableEq

def getSyncMode : SyncMode → SymitarSyncMode
  | .push => .PUSH
  | .pull => .PULL
  | .mirror => .MIRROR

structure SynchronizeConfig where
  symitarHostname : String
  symNumber : Nat
  symitarUserNumber : String
  symitarUserPassword : String
  sshUsername : String
  sshPassword : String
  sshPort : Nat
  symitarAppPort : Option Nat
  apiKey : String
  localDirectoryPath : String
  directoryType : DirectoryType
  connectionType : ConnectionType
  syncMode : SyncMode
  isDryRun : Bool
  installPowerOnList : List String
  validateIgnoreList : List String
  debug : Bool
  logPrefix : String
deriving DecidableEq

/-- Response shape of the synchronizeFiles client call. -/
structure SymitarSyncResponse where
  deployed : List String
  deleted : List String
  installed : List String
  uninstalled : List String
deriving DecidableEq

structure SynchronizeResult where
  filesDeployed : Nat
  filesDeleted : Nat
  filesInstalled : Nat
  filesUninstalled : Nat
  deployedFiles : List String
  deletedFiles : List String
  installedFiles : List String
  uninstalledFiles : List String
deriving DecidableEq

/-- The result record built at the end of synchronizeToSymitar: counts are the
lengths of the four lists, lists are copied verbatim from the response. -/
def mkSynchronizeResult (r : SymitarSyncResponse) : SynchronizeResult :=
  ⟨r.deployed.length, r.deleted.length, r.installed.length, r.uninstalled.length,
    r.deployed, r.deleted, r.installed, r.uninstalled⟩

/-- Response shape of the syncFiles client call in the SyncFilesOptions variant
of synchronize.ts, where installed/uninstalled may be absent. -/
structure SyncFilesResult where
  synced : List String
  deleted : List String
  installed : Option (List String)
  uninstalled : Option (List String)
deriving DecidableEq

/-- The result record built by the SyncFilesOptions variant: absent
installed/uninstalled become count 0 and empty lists. -/
def mkSynchronizeResultFromSyncFiles (r : SyncFilesResult) : SynchronizeResult :=
  ⟨r.synced.length, r.deleted.length,
    (match r.installed with | some l => l.length | none => 0),
    (match r.uninstalled with | some l => l.length | none => 0),
    r.synced, r.deleted,
    (match r.installed with | some l => l | none => []),
    (match r.uninstalled with | some l => l | none => [])⟩

/-- JavaScript try/finally with an awaited cleanup: a cleanup that throws
replaces the outcome of the body; a cleanup that completes lets the body
outcome through. -/
def tryFinallyAwait {α : Type} (body : Except ThrownError α)
    (cleanup : Except ThrownError Unit) : Except ThrownError α :=
  match cleanup with
  | .error e => .error e
  | .ok _ => body

/-- Oracle behavior of a SymitarHTTPs client instance. -/
structure HttpsClientBehavior where
  syncOutcome : Except ThrownError SymitarSyncResponse
  endOutcome : Except ThrownError Unit
deriving DecidableEq

/-- Oracle behavior of a SymitarSSH client instance. -/
structure SshClientBehavior where
  readyOutcome : Except ThrownError Unit
  syncOutcome : Except ThrownError SymitarSyncResponse
  endOutcome : Except ThrownError Unit
deriving DecidableEq

/-- Observable result of one transport call: how many client instances were
constructed, how many times end was invoked, and the outcome. -/
structure TransportCall where
  clientsConstructed : Nat
  endCalls : Nat
  outcome : Except ThrownError SymitarSyncResponse
deriving DecidableEq

/-- JavaScript truthiness of config.symitarAppPort: undefined and 0 are falsy. -/
def appPortPresent : Option Nat → Bool
  | none => false
  | some p => p != 0

/-- Source: synchronizeViaHTTPs — requires symitarAppPort before constructing
the client; the client end call sits in a finally block. -/
def synchronizeViaHTTPs (config : SynchronizeConfig) (client : HttpsClientBehavior) :
    TransportCall :=
  if appPortPresent config.symitarAppPort then
    ⟨1, 1, tryFinallyAwait client.syncOutcome client.endOutcome⟩
  else
    ⟨0, 0, .error (.error "symitar-app-port is required when using HTTPS connection")⟩

/-- Source: synchronizeViaSSH — awaits client readiness inside the try block,
then synchronizes; the client end call sits in a finally block. -/
def synchronizeViaSSH (_config : SynchronizeConfig) (client : SshClientBehavior) :
    TransportCall :=
  ⟨1, 1,
    tryFinallyAwait
      (match client.readyOutcome with
       | .error e => .error e
       | .ok _ => client.syncOutcome)
      client.endOutcome⟩

/-- Observable result of one synchronizeToSymitar run. -/
structure OrchestratorRun where
  validation : ValidationRun
  installList : Option (List String)
  httpsClientsConstructed : Nat
  sshClientsConstructed : Nat
  endCalls : Nat
  outcome : Except ThrownError SynchronizeResult
deriving DecidableEq

/-- Source: synchronizeToSymitar — validate the API key first, resolve the
directory config and install list, dispatch on connection type, and build the
result record from the response lists. -/
def synchronizeToSymitar (env : LicenseEnv) (net : Nat → AttemptResult)
    (httpsClient : HttpsClientBehavior) (sshClient : SshClientBehavior)
    (config : SynchronizeConfig) : OrchestratorRun :=
  let validation := validateApiKey env config.apiKey net
  match validation.outcome with
  | .error e => ⟨validation, none, 0, 0, 0, .error e⟩
  | .ok _ =>
    let installList := getInstallList config.directoryType config.installPowerOnList
    match config.connectionType with
    | .https =>
      let call := synchronizeViaHTTPs config httpsClient
      ⟨validation, some installList, call.clientsConstructed, 0, call.endCalls,
        call.outcome.map mkSynchronizeResult⟩
    | .ssh =>
      let call := synchronizeViaSSH config sshClient
      ⟨validation, some installList, 0, call.clientsConstructed, call.endCalls,
        call.outcome.map mkSynchronizeResult⟩

/-! ## Concrete fixtures used by witnesses and counterexamples -/

def sampleEnv : LicenseEnv := ⟨"", false⟩

/-- Network oracle that answers every attempt with a valid subscription. -/
def sampleNet : Nat → AttemptResult :=
  fun _ => .response true 200 "OK" (.wellFormed true [⟨"123", "active"⟩])

/-- Network oracle that fails every attempt with a network error. -/
def downNet : Nat → AttemptResult :=
  fun _ => .thrown "Network error"

/-- Network oracle that answers every attempt with HTTP 401. -/
def unauthorizedNet : Nat → AttemptResult :=
  fun _ => .response false 401 "Unauthorized" .malformed

def sampleResponse : SymitarSyncResponse :=
  ⟨["FILE1.PO", "FILE2.PO"], ["OLD.PO"], ["FILE1.PO"], []⟩

def sampleHttpsClient : HttpsClientBehavior := ⟨.ok sampleResponse, .ok ()⟩

def sampleSshClient : SshClientBehavior := ⟨.ok (), .ok sampleResponse, .ok ()⟩

def sampleSshConfig : SynchronizeConfig :=
  ⟨"symitar.example.com", 627, "1", "questpass", "testuser", "testpass", 22, none,
    "test-api-key", "./powerons/", .powerOns, .ssh, .push, false, ["FILE1.PO"], [],
    false, "[Test]"⟩

def sampleHttpsConfig : SynchronizeConfig :=
  { sampleSshConfig with connectionType := .https, symitarAppPort := some 42627 }

/-- Network oracle for the C4 witness: attempt 1 fails with a network error,
attempt 2 answers HTTP 401. -/
def c4WitnessNet : Nat → AttemptResult :=
  fun m => if m = 2 then .response false 401 "Unauthorized" .malformed else .thrown "ECONNRESET"

/-- The outcome of the ResultAggregator scenario in the spec. -/
def c8Example : SyncResultLists := ⟨["A", "B"], ["C"], ["A"], ["D", "E"]⟩

def c1Response : SymitarSyncResponse := ⟨[], [], ["INSTALLED.PO"], []⟩

def c1SshClient : SshClientBehavior := ⟨.ok (), .ok c1Response, .ok ()⟩

def c1Config : SynchronizeConfig := { sampleSshConfig with directoryType := .letterFiles }

/-- SSH client whose synchronize succeeds but whose end call fails. -/
def c2SshClient : SshClientBehavior := ⟨.ok (), .ok sampleResponse, .error (.error "end failed")⟩

def c3Env : LicenseEnv := ⟨"dev-", false⟩

/-- HTTPS configuration with an absent application port. -/
def c7Config : SynchronizeConfig := { sampleSshConfig with connectionType := .https }

/-! ## Claims -/

/-- Claim C5: a key that is empty or whitespace-only after trimming fails
immediately with an AuthenticationError carrying the supplied key and an empty
host, with zero network attempts and zero retries. -/
theorem c5_blank_key_fails_immediately (env : LicenseEnv) (apiKey : String)
    (net : Nat → AttemptResult) (h : isBlankKey apiKey = true) :
    validateApiKey env apiKey net =
      ⟨0, [], .error (.authenticationError "PowerOn Pipelines API Key is missing" apiKey "")⟩ := by
  simp [validateApiKey, h]

/-- Witness for C5 at the whitespace-only key. -/
theorem c5_witness :
    validateApiKey sampleEnv "   " downNet =
      ⟨0, [], .error (.authenticationError "PowerOn Pipelines API Key is missing" "   " "")⟩ :=
  c5_blank_key_fails_immediately sampleEnv "   " downNet (by decide)

/-- Claim C6: the delay recorded after the n-th attempt (1-based) is
min (500 * 2 ^ (n - 1)) 10000 ms, i.e. 500 ms after attempt 1 and 1000 ms
after attempt 2; one delay is recorded per retried attempt. -/
theorem c6_retry_delays (env : LicenseEnv) (apiKey : String) (net : Nat → AttemptResult) :
    (validateApiKey env apiKey net).delays =
      (List.range ((validateApiKey env apiKey net).attemptsMade - 1)).map
        (fun i => min (500 * 2 ^ i) 10000) := by
  by_cases hb : isBlankKey apiKey
  · simp [validateApiKey, hb]
  · have e0 : validateApiKey env apiKey net = validateApiKeyLoop env apiKey net 1 3 := by
      simp [validateApiKey, hb, MAX_API_RETRIES]
    rw [e0]
    rcases h1 : processAttempt apiKey (net 1) with _ | e1 | m1
    · simp [validateApiKeyLoop, h1]
    · simp [validateApiKeyLoop, h1]
    · rcases h2 : processAttempt apiKey (net 2) with _ | e2 | m2
      · simp [validateApiKeyLoop, h1, h2, MAX_API_RETRIES, backoffDelay]
        decide
      · simp [validateApiKeyLoop, h1, h2, MAX_API_RETRIES, backoffDelay]
        decide
      · rcases h3 : processAttempt apiKey (net 3) with _ | e3 | m3 <;>
          simp [validateApiKeyLoop, h1, h2, h3, MAX_API_RETRIES, backoffDelay] <;>
          decide

/-- Claim C8: totalChanges is deployed + deleted, plus installed + uninstalled
exactly for the install-supporting type (powerOns); on the spec scenario the
total is 6 for powerOns and 3 for every other type. -/
theorem c8_total_changes :
    (∀ (t : DirectoryType) (r : SyncResultLists),
        calculateTotalChanges t r =
          r.deployed.length + r.deleted.length +
            (if (DIRECTORY_CONFIG t).supportsInstall then
              r.installed.length + r.uninstalled.length
            else 0)) ∧
      (∀ t : DirectoryType,
        (DIRECTORY_CONFIG t).supportsInstall = true ↔ t = DirectoryType.powerOns) ∧
      calculateTotalChanges DirectoryType.powerOns c8Example = 6 ∧
      (∀ t : DirectoryType, t ≠ DirectoryType.powerOns →
        calculateTotalChanges t c8Example = 3) := by
  refine ⟨?_, ?_, by decide, ?_⟩
  · intro t r
    by_cases h : (DIRECTORY_CONFIG t).supportsInstall
    · simp [calculateTotalChanges, h]
      omega
    · simp [calculateTotalChanges, h]
  · intro t
    cases t <;> simp [DIRECTORY_CONFIG]
  · intro t ht
    cases t
    · exact absurd rfl ht
    all_goals decide

/-- Witness for C8 at a non-install type. -/
theorem c8_witness : calculateTotalChanges DirectoryType.letterFiles c8Example = 3 :=
  c8_total_changes.2.2.2 DirectoryType.letterFiles (by decide)

/-- Claim C9: resolveInstallList (getInstallList) returns the requested list
unchanged for powerOns and the empty list for every other type, regardless of
the input list. -/
theorem c9_resolve_install_list :
    (∀ l : List String, getInstallList DirectoryType.powerOns l = l) ∧
      (∀ (t : DirectoryType) (l : List String), t ≠ DirectoryType.powerOns →
        getInstallList t l = []) := by
  constructor
  · intro l
    simp [getInstallList, DIRECTORY_CONFIG]
  · intro t l ht
    cases t
    · exact absurd rfl ht
    all_goals rfl

/-- Witness for C9 at a non-install type with a non-empty requested list. -/
theorem c9_witness : getInstallList DirectoryType.dataFiles ["X.PO"] = [] :=
  c9_resolve_install_list.2 DirectoryType.dataFiles ["X.PO"] (by decide)

/-- Claim C1 counterexample: for the non-install type letterFiles and a
transport outcome containing an installed file, the normalized result copies
that file through — installedCount is 1 and the installed list is non-empty,
refuting the claim that they are forced to 0/empty for every outcome. -/
theorem c1_counterexample :
    (DIRECTORY_CONFIG c1Config.directoryType).supportsInstall = false ∧
      (synchronizeToSymitar sampleEnv sampleNet sampleHttpsClient c1SshClient c1Config).outcome =
        .ok (mkSynchronizeResult c1Response) ∧
      (mkSynchronizeResult c1Response).filesInstalled = 1 ∧
      (mkSynchronizeResult c1Response).installedFiles = ["INSTALLED.PO"] := by
  decide

/-- Claim C1 (amended): for non-install types the install list forwarded to
the transport is empty, but the normalized result copies the outcome
installed/uninstalled lists and counts verbatim; only totalChanges excludes
them for such types. -/
theorem c1_amended_normalization :
    (∀ (t : DirectoryType) (l : List String),
        (DIRECTORY_CONFIG t).supportsInstall = false → getInstallList t l = []) ∧
      (∀ r : SymitarSyncResponse,
        (mkSynchronizeResult r).filesInstalled = r.installed.length ∧
          (mkSynchronizeResult r).filesUninstalled = r.uninstalled.length ∧
          (mkSynchronizeResult r).installedFiles = r.installed ∧
          (mkSynchronizeResult r).uninstalledFiles = r.uninstalled) ∧
      (∀ (t : DirectoryType) (r : SyncResultLists),
        (DIRECTORY_CONFIG t).supportsInstall = false →
          calculateTotalChanges t r = r.deployed.length + r.deleted.length) := by
  refine ⟨?_, ?_, ?_⟩
  · intro t l h
    simp [getInstallList, h]
  · intro r
    exact ⟨rfl, rfl, rfl, rfl⟩
  · intro t r h
    simp [calculateTotalChanges, h]

/-- Witness for the amended C1 at letterFiles. -/
theorem c1_amended_witness :
    getInstallList DirectoryType.letterFiles ["X.PO"] = [] ∧
      calculateTotalChanges DirectoryType.letterFiles c8Example =
        c8Example.deployed.length + c8Example.deleted.length :=
  ⟨c1_amended_normalization.1 DirectoryType.letterFiles ["X.PO"] (by decide),
    c1_amended_normalization.2.2 DirectoryType.letterFiles c8Example (by decide)⟩

/-- Claim C2 counterexample: an SSH run whose synchronize succeeds but whose
teardown fails surfaces the teardown error to the caller, replacing the
successful outcome — teardown failure does mask the original outcome. -/
theorem c2_counterexample :
    c2SshClient.syncOutcome = .ok sampleResponse ∧
      (synchronizeToSymitar sampleEnv sampleNet sampleHttpsClient c2SshClient
          sampleSshConfig).endCalls = 1 ∧
      (synchronizeToSymitar sampleEnv sampleNet sampleHttpsClient c2SshClient
          sampleSshConfig).outcome = .error (.error "end failed") ∧
      (Except.error (.error "end failed") : Except ThrownError SynchronizeResult) ≠
        .ok (mkSynchronizeResult sampleResponse) := by
  decide

/-- Claim C2 (amended): once a transport client is constructed, its end call
is invoked exactly once on every exit path; when teardown completes the
original outcome or error is surfaced unchanged, but a teardown failure
replaces it. -/
theorem c2_amended_teardown :
    (∀ (config : SynchronizeConfig) (client : HttpsClientBehavior),
        appPortPresent config.symitarAppPort = true →
          (synchronizeViaHTTPs config client).clientsConstructed = 1 ∧
            (synchronizeViaHTTPs config client).endCalls = 1 ∧
            (client.endOutcome = .ok () →
              (synchronizeViaHTTPs config client).outcome = client.syncOutcome) ∧
            (∀ e, client.endOutcome = .error e →
              (synchronizeViaHTTPs config client).outcome = .error e)) ∧
      (∀ (config : SynchronizeConfig) (client : SshClientBehavior),
        (synchronizeViaSSH config client).clientsConstructed = 1 ∧
          (synchronizeViaSSH config client).endCalls = 1 ∧
          (client.endOutcome = .ok () →
            (synchronizeViaSSH config client).outcome =
              (match client.readyOutcome with
               | .error e => .error e
               | .ok _ => client.syncOutcome)) ∧
          (∀ e, client.endOutcome = .error e →
            (synchronizeViaSSH config client).outcome = .error e)) := by
  constructor
  · intro config client hp
    refine ⟨by simp [synchronizeViaHTTPs, hp], by simp [synchronizeViaHTTPs, hp], ?_, ?_⟩
    · intro he
      simp [synchronizeViaHTTPs, hp, tryFinallyAwait, he]
    · intro e he
      simp [synchronizeViaHTTPs, hp, tryFinallyAwait, he]
  · intro config client
    refine ⟨rfl, rfl, ?_, ?_⟩
    · intro he
      simp [synchronizeViaSSH, tryFinallyAwait, he]
    · intro e he
      simp [synchronizeViaSSH, tryFinallyAwait, he]

/-- Witness for the amended C2: HTTPS client with a present port and clean
teardown surfaces the synchronize outcome, with one end call. -/
theorem c2_amended_witness :
    (synchronizeViaHTTPs sampleHttpsConfig sampleHttpsClient).endCalls = 1 ∧
      (synchronizeViaHTTPs sampleHttpsConfig sampleHttpsClient).outcome =
        sampleHttpsClient.syncOutcome ∧
      (synchronizeViaSSH sampleSshConfig sampleSshClient).endCalls = 1 := by
  have hh := c2_amended_teardown.1 sampleHttpsConfig sampleHttpsClient (by decide)
  have hs := c2_amended_teardown.2 sampleSshConfig sampleSshClient
  exact ⟨hh.2.1, hh.2.2.1 (by decide), hs.2.1⟩

/-- Claim C3 counterexample: with stage prefix dev- the terminal
ConnectionError carries host license.libum.io while the endpoint host is
dev-license.libum.io, so the error does not carry the endpoint host. -/
theorem c3_counterexample :
    validateApiKey c3Env "test-api-key" downNet =
      ⟨3, [500, 1000], .error (.connectionError connectionFailureMessage
        "license.libum.io" 443 true "Network error")⟩ ∧
      endpointHost c3Env = "dev-license.libum.io" ∧
      ("license.libum.io" : String) ≠ "dev-license.libum.io" := by
  decide

/-- Claim C3 (amended): three consecutive retryable failures yield exactly 3
attempts and a terminal ConnectionError wrapping the last failure, port 443
and a secure flag, carrying the licensing host written without the stage
prefix — equal to the endpoint host whenever the stage prefix is empty. -/
theorem c3_amended_connection_error (env : LicenseEnv) (apiKey : String)
    (net : Nat → AttemptResult) (m1 m2 m3 : String)
    (hk : isBlankKey apiKey = false)
    (h1 : net 1 = .thrown m1) (h2 : net 2 = .thrown m2) (h3 : net 3 = .thrown m3) :
    validateApiKey env apiKey net =
      ⟨3, [500, 1000], .error (.connectionError connectionFailureMessage
        (connectionErrorHost env) 443 true m3)⟩ ∧
      (env.sstStagePrefix = "" → connectionErrorHost env = endpointHost env) := by
  constructor
  · simp [validateApiKey, hk, MAX_API_RETRIES, validateApiKeyLoop, processAttempt,
      h1, h2, h3, backoffDelay]
  · intro hp
    rcases env with ⟨p, sb⟩
    simp only at hp
    subst hp
    rfl

/-- Witness for the amended C3 in the default environment. -/
theorem c3_amended_witness :
    validateApiKey sampleEnv "test-api-key" downNet =
      ⟨3, [500, 1000], .error (.connectionError connectionFailureMessage
        (connectionErrorHost sampleEnv) 443 true "Network error")⟩ ∧
      (sampleEnv.sstStagePrefix = "" →
        connectionErrorHost sampleEnv = endpointHost sampleEnv) :=
  c3_amended_connection_error sampleEnv "test-api-key" downNet
    "Network error" "Network error" "Network error" (by decide) rfl rfl rfl

/-- Claim C4 counterexample: an HTTP 401 on attempt 1 terminates immediately
with an AuthenticationError as claimed, but the error carries an empty host
string, not the target host license.libum.io. -/
theorem c4_counterexample :
    validateApiKey sampleEnv "bad-api-key" unauthorizedNet =
      ⟨1, [], .error (.authenticationError
        "Failed to validate API key: 401 Unauthorized" "bad-api-key" "")⟩ ∧
      endpointHost sampleEnv = "license.libum.io" ∧
      ("" : String) ≠ "license.libum.io" := by
  decide

/-- Claim C4 (amended): a non-success HTTP status on any attempt n ends the
loop at exactly n attempts with an AuthenticationError carrying the offending
key and an empty host string. -/
theorem c4_amended_http_failure (env : LicenseEnv) (apiKey : String)
    (net : Nat → AttemptResult) (n status : Nat) (statusText : String) (data : ApiData)
    (hk : isBlankKey apiKey = false) (hn1 : 1 ≤ n) (hn3 : n ≤ MAX_API_RETRIES)
    (hprev : ∀ m, 1 ≤ m → m < n → ∃ msg, net m = .thrown msg)
    (hn : net n = .response false status statusText data) :
    validateApiKey env apiKey net =
      ⟨n, (List.range (n - 1)).map (fun i => min (500 * 2 ^ i) 10000),
        .error (.authenticationError
          ("Failed to validate API key: " ++ toString status ++ " " ++ statusText)
          apiKey "")⟩ := by
  have hn3' : n ≤ 3 := hn3
  interval_cases n
  · simp [validateApiKey, hk, MAX_API_RETRIES, validateApiKeyLoop, processAttempt, hn]
  · obtain ⟨msg1, hm1⟩ := hprev 1 (by omega) (by omega)
    simp [validateApiKey, hk, MAX_API_RETRIES, validateApiKeyLoop, processAttempt,
      hm1, hn, backoffDelay]
    decide
  · obtain ⟨msg1, hm1⟩ := hprev 1 (by omega) (by omega)
    obtain ⟨msg2, hm2⟩ := hprev 2 (by omega) (by omega)
    simp [validateApiKey, hk, MAX_API_RETRIES, validateApiKeyLoop, processAttempt,
      hm1, hm2, hn, backoffDelay]
    decide

/-- Witness for the amended C4: network error on attempt 1, HTTP 401 on
attempt 2 — the run stops at attempt 2 with the AuthenticationError. -/
theorem c4_amended_witness :
    validateApiKey sampleEnv "bad-api-key" c4WitnessNet =
      ⟨2, (List.range (2 - 1)).map (fun i => min (500 * 2 ^ i) 10000),
        .error (.authenticationError
          ("Failed to validate API key: " ++ toString 401 ++ " " ++ "Unauthorized")
          "bad-api-key" "")⟩ :=
  c4_amended_http_failure sampleEnv "bad-api-key" c4WitnessNet 2 401 "Unauthorized"
    .malformed (by decide) (by omega) (by decide)
    (by
      intro m hm1 hm2
      interval_cases m
      exact ⟨"ECONNRESET", rfl⟩)
    rfl

/-- Claim C7: with connection type https and an absent application port, the
orchestrator fails with the configuration error before constructing any
transport client, and no end call occurs. -/
theorem c7_https_requires_port (env : LicenseEnv) (net : Nat → AttemptResult)
    (httpsClient : HttpsClientBehavior) (sshClient : SshClientBehavior)
    (config : SynchronizeConfig)
    (hc : config.connectionType = .https)
    (hp : appPortPresent config.symitarAppPort = false)
    (hv : (validateApiKey env config.apiKey net).outcome = .ok ()) :
    (synchronizeToSymitar env net httpsClient sshClient config).outcome =
        .error (.error "symitar-app-port is required when using HTTPS connection") ∧
      (synchronizeToSymitar env net httpsClient sshClient config).httpsClientsConstructed = 0 ∧
      (synchronizeToSymitar env net httpsClient sshClient config).sshClientsConstructed = 0 ∧
      (synchronizeToSymitar env net httpsClient sshClient config).endCalls = 0 := by
  refine ⟨?_, ?_, ?_, ?_⟩ <;>
    simp [synchronizeToSymitar, hv, hc, synchronizeViaHTTPs, hp, Except.map]

/-- Witness for C7 at a concrete https configuration without a port. -/
theorem c7_witness :
    (synchronizeToSymitar sampleEnv sampleNet sampleHttpsClient sampleSshClient
          c7Config).outcome =
        .error (.error "symitar-app-port is required when using HTTPS connection") ∧
      (synchronizeToSymitar sampleEnv sampleNet sampleHttpsClient sampleSshClient
          c7Config).httpsClientsConstructed = 0 ∧
      (synchronizeToSymitar sampleEnv sampleNet sampleHttpsClient sampleSshClient
          c7Config).sshClientsConstructed = 0 ∧
      (synchronizeToSymitar sampleEnv sampleNet sampleHttpsClient sampleSshClient
          c7Config).endCalls = 0 :=
  c7_https_requires_port sampleEnv sampleNet sampleHttpsClient sampleSshClient c7Config
    rfl rfl (by decide)

/-- Claim C10: every successful result has each count field equal to the
length of its file list; the same holds for the SyncFilesOptions variant of
the result construction, where installed/uninstalled may be absent. -/
theorem c10_counts_match_lists :
    (∀ (env : LicenseEnv) (net : Nat → AttemptResult) (httpsClient : HttpsClientBehavior)
        (sshClient : SshClientBehavior) (config : SynchronizeConfig)
        (res : SynchronizeResult),
        (synchronizeToSymitar env net httpsClient sshClient config).outcome = .ok res →
          res.filesDeployed = res.deployedFiles.length ∧
            res.filesDeleted = res.deletedFiles.length ∧
            res.filesInstalled = res.installedFiles.length ∧
            res.filesUninstalled = res.uninstalledFiles.length) ∧
      (∀ r : SyncFilesResult,
        (mkSynchronizeResultFromSyncFiles r).filesDeployed =
            (mkSynchronizeResultFromSyncFiles r).deployedFiles.length ∧
          (mkSynchronizeResultFromSyncFiles r).filesDeleted =
            (mkSynchronizeResultFromSyncFiles r).deletedFiles.length ∧
          (mkSynchronizeResultFromSyncFiles r).filesInstalled =
            (mkSynchronizeResultFromSyncFiles r).installedFiles.length ∧
          (mkSynchronizeResultFromSyncFiles r).filesUninstalled =
            (mkSynchronizeResultFromSyncFiles r).uninstalledFiles.length) := by
  constructor
  · intro env net httpsClient sshClient config res h
    have hr : ∃ r : SymitarSyncResponse, res = mkSynchronizeResult r := by
      simp only [synchronizeToSymitar] at h
      cases hv : (validateApiKey env config.apiKey net).outcome with
      | error e => rw [hv] at h; simp at h
      | ok u =>
        rw [hv] at h
        cases hct : config.connectionType with
        | https =>
          rw [hct] at h
          simp only at h
          cases ho : (synchronizeViaHTTPs config httpsClient).outcome with
          | error e => rw [ho] at h; simp [Except.map] at h
          | ok r =>
            rw [ho] at h
            simp [Except.map] at h
            exact ⟨r, h.symm⟩
        | ssh =>
          rw [hct] at h
          simp only at h
          cases ho : (synchronizeViaSSH config sshClient).outcome with
          | error e => rw [ho] at h; simp [Except.map] at h
          | ok r =>
            rw [ho] at h
            simp [Except.map] at h
            exact ⟨r, h.symm⟩
    obtain ⟨r, hr⟩ := hr
    subst hr
    exact ⟨rfl, rfl, rfl, rfl⟩
  · intro r
    rcases r with ⟨s, d, i, u⟩
    rcases i with _ | li <;> rcases u with _ | lu <;>
      simp [mkSynchronizeResultFromSyncFiles]

/-- Witness for C10 at a concrete successful SSH run. -/
theorem c10_witness :
    (mkSynchronizeResult sampleResponse).filesDeployed =
        (mkSynchronizeResult sampleResponse).deployedFiles.length ∧
      (mkSynchronizeResult sampleResponse).filesDeleted =
        (mkSynchronizeResult sampleResponse).deletedFiles.length ∧
      (mkSynchronizeResult sampleResponse).filesInstalled =
        (mkSynchronizeResult sampleResponse).installedFiles.length ∧
      (mkSynchronizeResult sampleResponse).filesUninstalled =
        (mkSynchronizeResult sampleResponse).uninstalledFiles.length :=
  c10_counts_match_lists.1 sampleEnv sampleNet sampleHttpsClient sampleSshClient
    sampleSshConfig (mkSynchronizeResult sampleResponse) (by decide)

end SymitarAction
